import Mathlib

/-!
Verification of the connection-pooling and error-classification core of a
small Express/MariaDB backend (`src/index.js`).

The JavaScript source is shallowly embedded as follows.

* A database connection object is a `Conn`: its `valid` field is the (pure)
  result of the driver method `conn.isValid()`; `id` distinguishes objects.
* JavaScript errors are `JsError` records with `name`, `message` and an
  optional driver `code` (for the `err.code` comparison against `ER_ACCESS_DENIED_ERROR`).
* `String.prototype.includes` is embedded as `jsIncludes` (substring test
  over the character list).
* The module-level mutable state (`activeConnections`, together with ghost
  instrumentation counting `getAuthToken` invocations and recording every
  `conn.end()` call) is a `World` record threaded explicitly.  The JS array
  is used as a stack (`push`/`pop` at the end); we model the array end as
  the HEAD of the Lean list.  Pool entries are `Option Conn`: `none` stands
  for a falsy (`null`/`undefined`) array entry.
* Outcomes of the external world — the RDS token call, the physical
  `mariadb.createConnection`, `conn.ping()` and `conn.query(...)` — are
  supplied by an environment (`ConnEnv`, `ReqEnv`) so that every control
  path of the source can be explored.  A `conn.end()` call inside
  `try { ... } catch (e) { /* ignore */ }` is embedded as recording the
  connection in `World.closed` (the throw is swallowed in the source, so
  no failure propagates); embedded functions are total, which captures
  that the corresponding JS functions cannot throw except where an
  `Except.error` is produced.
-/

/-- Embedding of the JavaScript substring test `hay.includes(pat)` on
character lists: true iff `pat` occurs contiguously in `hay`
(the empty pattern occurs in every string, as in JS). -/
def hasSubList (pat : List Char) : List Char → Bool
  | [] => pat.isEmpty
  | c :: rest => pat.isPrefixOf (c :: rest) || hasSubList pat rest

/-- The test `jsIncludes s pat` embeds the JavaScript expression written in the source as a call of includes on s with argument pat. -/
def jsIncludes (s pat : String) : Bool :=
  hasSubList pat.data s.data

/-- A JavaScript error value: `name`, `message`, and the optional
driver-specific `code` property compared by `getConnection` against the string `ER_ACCESS_DENIED_ERROR`. -/
structure JsError where
  name : String
  message : String
  code : Option String := none
deriving DecidableEq, Repr

/-- A database connection object.  `valid` is the result of the driver
liveness check `conn.isValid()` (a pure property of the object in this
model); `id` distinguishes connection objects. -/
structure Conn where
  id : Nat
  valid : Bool
deriving DecidableEq, Repr

/-- The fields of `dbConfig` (src/index.js lines 12-22) that the pooling
logic reads.  `host`, `user`, `database` and `port` come from environment
variables and are never inspected by the claims, so only the literal
`connectionLimit: 5` is retained. -/
structure DbConfig where
  connectionLimit : Nat
deriving DecidableEq, Repr

/-- The configuration record `dbConfig`, whose idle cap is the literal 5 (src/index.js line 17). -/
def dbConfig : DbConfig := { connectionLimit := 5 }

/-- JavaScript `a || b` on numbers (`0` is falsy), used in
`dbConfig.connectionLimit || 5`. -/
def jsOrNat (a b : Nat) : Nat :=
  if a = 0 then b else a

/-- Outcomes of the external calls made while creating a fresh connection:
the RDS `generateAuthenticationToken` call and, given the token used as
password, the `mariadb.createConnection` call. -/
structure ConnEnv where
  tokenOutcome : Except JsError String
  connectOutcome : String → Except JsError Conn

/-- Ghost tag recording whether an acquired connection came out of the
idle pool or from a fresh `getConnection()` call. -/
inductive AcqSource where
  | pool
  | fresh
deriving DecidableEq, Repr

/-- The module-level mutable state of src/index.js plus ghost
instrumentation: `pool` is `activeConnections` (list head = JS array end),
`tokenFetches` counts `getAuthToken` invocations, `closed` records every
connection on which `conn.end()` was called. -/
structure World where
  pool : List (Option Conn)
  tokenFetches : Nat
  closed : List Conn
deriving DecidableEq, Repr

/-- The initial state: `let activeConnections = []` (src/index.js line 81),
no token fetches, no closes. -/
def initialWorld : World := { pool := [], tokenFetches := 0, closed := [] }

/-- The permission test in the catch block of `getAuthToken`
(src/index.js lines 39-43). -/
def isPermissionSignal (e : JsError) : Bool :=
  e.name == "CredentialsProviderError" ||
  e.name == "AccessDenied" ||
  jsIncludes e.message "credentials" ||
  jsIncludes e.message "permission" ||
  jsIncludes e.message "access denied"

/-- The distinguished error thrown by `getAuthToken` on a permission
signal (src/index.js line 45). -/
def rdsPermissionDenied : JsError :=
  { name := "Error"
    message := "Permission denied: EC2 instance doesn\u0027t have appropriate IAM role for RDS access" }

/-- Embedding of `getAuthToken` (src/index.js lines 25-49).  The
invocation bumps the ghost token-fetch counter; on failure of the
underlying RDS call the error is classified exactly as in the source. -/
def getAuthToken (env : ConnEnv) (tf : Nat) : Except JsError String × Nat :=
  (match env.tokenOutcome with
   | .ok token => .ok token
   | .error err =>
     if isPermissionSignal err then .error rdsPermissionDenied else .error err,
   tf + 1)

/-- The distinguished error thrown by `getConnection` on the MariaDB
access-denied code (src/index.js line 72). -/
def dbPermissionDenied : JsError :=
  { name := "Error"
    message := "Permission denied: Database access denied. Check EC2 IAM role permissions." }

/-- The catch block of `getConnection` (src/index.js lines 62-77):
rethrow a "Permission denied" error unchanged, translate
`ER_ACCESS_DENIED_ERROR`, rethrow everything else unchanged. -/
def getConnectionCatch (err : JsError) : Except JsError Conn :=
  if !(err.message == "") && jsIncludes err.message "Permission denied" then
    .error err
  else if err.code == some "ER_ACCESS_DENIED_ERROR" then
    .error dbPermissionDenied
  else
    .error err

/-- Embedding of `getConnection` (src/index.js lines 52-78): fetch a fresh
auth token, then open a connection with the token as password; any error
from either step goes through the catch block. -/
def getConnection (env : ConnEnv) (tf : Nat) : Except JsError Conn × Nat :=
  match getAuthToken env tf with
  | (.ok token, tf1) =>
    match env.connectOutcome token with
    | .ok conn => (.ok conn, tf1)
    | .error err => (getConnectionCatch err, tf1)
  | (.error err, tf1) => (getConnectionCatch err, tf1)

/-- Embedding of `getPoolConnection` (src/index.js lines 84-98), recursing
on the pool contents (`pop` takes the list head).  The guard
`conn && !conn.isValid()` is false for a falsy (`none`) entry, which is
returned as-is; an invalid connection is closed (recorded in the `closed`
accumulator, the close error being swallowed) and the lookup retries; an
empty pool falls through to `getConnection`.  The `AcqSource` component is
ghost instrumentation distinguishing pool reuse from fresh creation. -/
def getPoolConnection (env : ConnEnv) :
    List (Option Conn) → Nat → List Conn →
    Except JsError (Option Conn × AcqSource) × World
  | [], tf, cl =>
    match getConnection env tf with
    | (.ok conn, tf1) => (.ok (some conn, .fresh), ⟨[], tf1, cl⟩)
    | (.error err, tf1) => (.error err, ⟨[], tf1, cl⟩)
  | some conn :: rest, tf, cl =>
    if !conn.valid then
      getPoolConnection env rest tf (conn :: cl)
    else
      (.ok (some conn, .pool), ⟨rest, tf, cl⟩)
  | none :: rest, tf, cl =>
    (.ok (none, .pool), ⟨rest, tf, cl⟩)

/-- The function `getPoolConnection` acting on a `World`. -/
def getPoolConnectionW (env : ConnEnv) (w : World) :
    Except JsError (Option Conn × AcqSource) × World :=
  getPoolConnection env w.pool w.tokenFetches w.closed

/-- Embedding of `releaseConnection` (src/index.js lines 101-110): a
truthy, valid connection is pushed back while the pool is below
`dbConfig.connectionLimit || 5`, and closed otherwise; in every other
case (falsy argument, or liveness check false) the function does nothing
at all. -/
def releaseConnection (conn : Option Conn) (w : World) : World :=
  match conn with
  | some c =>
    if c.valid then
      if w.pool.length < jsOrNat dbConfig.connectionLimit 5 then
        { w with pool := some c :: w.pool }
      else
        { w with closed := c :: w.closed }
    else w
  | none => w

/-- One client interaction with the connection manager: an Acquire (with
the external-world outcomes it would see) or a Release of a value. -/
inductive Op where
  | acquire (env : ConnEnv)
  | release (conn : Option Conn)

/-- State transition of the pool under one operation. -/
def stepOp (w : World) : Op → World
  | .acquire env => (getPoolConnectionW env w).2
  | .release conn => releaseConnection conn w

/-- Running a sequence of Acquire/Release operations from the initial
(empty-pool) state. -/
def runOps (ops : List Op) : World :=
  ops.foldl stepOp initialWorld

/-- A row of the fixed query `SELECT id, name, email FROM students`. -/
structure Row where
  id : Nat
  name : String
  email : String
deriving DecidableEq, Repr

/-- Outcomes of all external calls a request handler can make: the
connection-creation outcomes plus, per connection, the outcomes of
`conn.ping()` and of the fixed students query. -/
structure ReqEnv extends ConnEnv where
  pingOutcome : Conn → Except JsError Unit
  queryOutcome : Conn → Except JsError (List Row)

/-- An HTTP response body as produced by the two handlers: a plain text
body, the health JSON body with `status` and `message` fields, the
students JSON error body with an `error` field, or a JSON array of rows. -/
inductive Body where
  | text (s : String)
  | jsonStatusMessage (status message : String)
  | jsonError (error : String)
  | rows (rs : List Row)
deriving DecidableEq, Repr

/-- An HTTP response: status code and body (`res.send` alone means 200). -/
structure Resp where
  status : Nat
  body : Body
deriving DecidableEq, Repr

/-- Record a `conn.end()` call wrapped in try/catch: the connection is
closed and any close error is swallowed. -/
def endConn (c : Conn) (w : World) : World :=
  { w with closed := c :: w.closed }

/-- The catch block of the `/health` handler (src/index.js lines 134-146):
a message containing "Permission denied" gives 403 with the fixed RDS
permission body; anything else gives 500 with the error message appended
to "Health check failed: ". -/
def mapHealthErr (err : JsError) : Resp :=
  if !(err.message == "") && jsIncludes err.message "Permission denied" then
    { status := 403
      body := .jsonStatusMessage "ERROR" rdsPermissionDenied.message }
  else
    { status := 500
      body := .jsonStatusMessage "ERROR" ("Health check failed: " ++ err.message) }

/-- Embedding of the `/health` handler (src/index.js lines 126-147):
`getConnection`, then `conn.ping()` inside a try whose finally closes the
connection (swallowing close errors); success sends the plain body, any
error is mapped by the catch block.  The handler never touches the idle
pool. -/
def healthHandler (env : ReqEnv) (w : World) : Resp × World :=
  match getConnection env.toConnEnv w.tokenFetches with
  | (.ok conn, tf1) =>
    let w1 := endConn conn { w with tokenFetches := tf1 }
    match env.pingOutcome conn with
    | .ok _ => ({ status := 200, body := .text "I am OK. Database connection successful." }, w1)
    | .error err => (mapHealthErr err, w1)
  | (.error err, tf1) => (mapHealthErr err, { w with tokenFetches := tf1 })

/-- The permission-denied test of the `/students` catch block
(src/index.js lines 160-164): a nonempty message containing
"Permission denied" or "access denied", or the MariaDB access-denied
driver code. -/
def studentsPermFlavored (err : JsError) : Bool :=
  !(err.message == "") &&
    (jsIncludes err.message "Permission denied" ||
     jsIncludes err.message "access denied" ||
     err.code == some "ER_ACCESS_DENIED_ERROR")

/-- The catch block of the `/students` handler (src/index.js lines
156-170): a permission-flavored error gives 403 with the fixed permission
body; every other error gives 500 with the fixed body that never includes
the driver error text. -/
def mapStudentsErr (err : JsError) : Resp :=
  if studentsPermFlavored err then
    { status := 403, body := .jsonError rdsPermissionDenied.message }
  else
    { status := 500, body := .jsonError "Failed to retrieve student data." }

/-- Embedding of the `/students` handler (src/index.js lines 149-176):
`getConnection`, the fixed query, `res.send(rows)` on success, the catch
block on error; the finally block closes the connection (swallowing close
errors) whenever it was assigned, including when the query failed.  The
handler never touches the idle pool. -/
def studentsHandler (env : ReqEnv) (w : World) : Resp × World :=
  match getConnection env.toConnEnv w.tokenFetches with
  | (.ok conn, tf1) =>
    let w1 := endConn conn { w with tokenFetches := tf1 }
    match env.queryOutcome conn with
    | .ok rows => ({ status := 200, body := .rows rows }, w1)
    | .error err => (mapStudentsErr err, w1)
  | (.error err, tf1) => (mapStudentsErr err, { w with tokenFetches := tf1 })

/-! ### Concrete fixtures used by witnesses and counterexamples -/

/-- A connection object whose liveness check reports it not live. -/
def invalidConn : Conn := { id := 0, valid := false }

/-- A connection object whose liveness check reports it live. -/
def validConn : Conn := { id := 1, valid := true }

/-- A generic non-permission failure of an external call. -/
def otherErr : JsError := { name := "Error", message := "socket timeout" }

/-- An underlying credential-provider failure of the token call. -/
def credsErr : JsError :=
  { name := "CredentialsProviderError", message := "could not load credentials" }

/-- An environment where both external creation steps fail generically. -/
def envNoConnect : ConnEnv :=
  { tokenOutcome := .error otherErr, connectOutcome := fun _ => .error otherErr }

/-- An environment where the token call fails with a credential error. -/
def envCredsErr : ConnEnv :=
  { tokenOutcome := .error credsErr, connectOutcome := fun _ => .error otherErr }

/-- A world with one live pooled connection and some prior activity. -/
def worldOnePooled : World :=
  { pool := [some validConn], tokenFetches := 2, closed := [] }

/-! ### Helper lemmas -/

/-- Acquire never grows the pool: the pool left behind by
`getPoolConnection` is at most as long as the pool it started from. -/
theorem getPoolConnection_pool_length_le (env : ConnEnv) :
    ∀ (pool : List (Option Conn)) (tf : Nat) (cl : List Conn),
      ((getPoolConnection env pool tf cl).2).pool.length ≤ pool.length := by
  intro pool
  induction pool with
  | nil =>
    intro tf cl
    simp only [getPoolConnection]
    rcases h : getConnection env tf with ⟨r, tf1⟩
    cases r <;> simp
  | cons hd rest ih =>
    intro tf cl
    cases hd with
    | some c =>
      cases hv : c.valid with
      | false =>
        simp only [getPoolConnection, hv, Bool.not_false, if_true]
        exact Nat.le_trans (ih tf (c :: cl)) (Nat.le_succ _)
      | true =>
        simp [getPoolConnection, hv]
    | none =>
      simp [getPoolConnection]

/-- One Acquire/Release step preserves the pool-size bound. -/
theorem stepOp_pool_length_le (w : World) (op : Op)
    (h : w.pool.length ≤ dbConfig.connectionLimit) :
    (stepOp w op).pool.length ≤ dbConfig.connectionLimit := by
  cases op with
  | acquire env =>
    exact Nat.le_trans
      (by simpa [stepOp, getPoolConnectionW] using
        getPoolConnection_pool_length_le env w.pool w.tokenFetches w.closed) h
  | release conn =>
    cases conn with
    | none => simpa [stepOp, releaseConnection] using h
    | some c =>
      cases hv : c.valid with
      | false => simpa [stepOp, releaseConnection, hv] using h
      | true =>
        by_cases hl : w.pool.length < jsOrNat dbConfig.connectionLimit 5
        · have hl5 : w.pool.length < 5 := by simpa [jsOrNat, dbConfig] using hl
          simp only [stepOp, releaseConnection, hv, if_true, if_pos hl]
          simp only [List.length_cons, dbConfig]
          omega
        · simpa [stepOp, releaseConnection, hv, hl] using h

/-! ### Claim theorems -/

/-- Claim C1: for every sequence of Acquire (`getPoolConnection`) and
Release (`releaseConnection`) calls starting from the empty idle pool, the
length of `activeConnections` never exceeds the configured cap
`dbConfig.connectionLimit` (5). -/
theorem claim_C1_pool_never_exceeds_cap (ops : List Op) :
    (runOps ops).pool.length ≤ dbConfig.connectionLimit := by
  suffices h : ∀ w : World, w.pool.length ≤ dbConfig.connectionLimit →
      ((ops.foldl stepOp w).pool.length ≤ dbConfig.connectionLimit) by
    exact h initialWorld (by simp [initialWorld])
  induction ops with
  | nil => intro w hw; simpa using hw
  | cons op rest ih =>
    intro w hw
    exact ih _ (stepOp_pool_length_le w op hw)

/-- Claim C2 counterexample: releasing the concrete not-live connection
`invalidConn` from the initial state performs no close call at all — the
set of closed connections stays empty, refuting the claim that Release
closes a connection whose liveness check fails. -/
theorem claim_C2_counterexample :
    invalidConn.valid = false ∧
    releaseConnection (some invalidConn) initialWorld = initialWorld ∧
    invalidConn ∉ (releaseConnection (some invalidConn) initialWorld).closed := by
  refine ⟨rfl, rfl, ?_⟩
  simp [releaseConnection, invalidConn, initialWorld]

/-- Claim C2 (amended): Release does not retain a connection whose
liveness check reports it not live, but — contrary to the spec — it does
not close it either: `releaseConnection` is a complete no-op on such a
connection. -/
theorem claim_C2_amended_release_invalid_noop (c : Conn) (w : World)
    (h : c.valid = false) :
    releaseConnection (some c) w = w := by
  simp [releaseConnection, h]

/-- Witness for the amended Claim C2 at a concrete not-live connection. -/
theorem claim_C2_amended_witness :
    invalidConn.valid = false ∧
    releaseConnection (some invalidConn) initialWorld = initialWorld :=
  ⟨rfl, claim_C2_amended_release_invalid_noop invalidConn initialWorld rfl⟩

/-- Claim C9: releasing a connection whose liveness check reports it not
live leaves the idle pool length unchanged (and, the embedded function
being total with every close call of the source wrapped in try/catch,
Release never throws). -/
theorem claim_C9_release_invalid_pool_unchanged (c : Conn) (w : World)
    (h : c.valid = false) :
    (releaseConnection (some c) w).pool.length = w.pool.length := by
  simp [releaseConnection, h]

/-- Witness for Claim C9 at a concrete not-live connection and a world
holding one pooled connection. -/
theorem claim_C9_witness :
    invalidConn.valid = false ∧
    (releaseConnection (some invalidConn) worldOnePooled).pool.length =
      worldOnePooled.pool.length :=
  ⟨rfl, claim_C9_release_invalid_pool_unchanged invalidConn worldOnePooled rfl⟩

/-- Claim C10: a falsy (`none`) entry popped from the idle pool is
returned directly to the caller: no liveness check is performed on it, no
close is recorded, no token is fetched and no fresh connection is created
— the guard `conn && !conn.isValid()` is false for a falsy candidate. -/
theorem claim_C10_falsy_entry_returned_directly (env : ConnEnv)
    (rest : List (Option Conn)) (tf : Nat) (cl : List Conn) :
    getPoolConnection env (none :: rest) tf cl =
      (.ok (none, .pool), ⟨rest, tf, cl⟩) := by
  simp [getPoolConnection]

/-- Claim C4: a connection released while live and while the pool is under
the cap is the value returned by the next Acquire, straight from the pool,
and the token-fetch count does not increase across the Release/Acquire
pair. -/
theorem claim_C4_release_then_acquire_reuses (env : ConnEnv) (c : Conn)
    (w : World) (hv : c.valid = true)
    (hcap : w.pool.length < dbConfig.connectionLimit) :
    (getPoolConnectionW env (releaseConnection (some c) w)).1 =
      .ok (some c, .pool) ∧
    (getPoolConnectionW env (releaseConnection (some c) w)).2.tokenFetches =
      w.tokenFetches := by
  have hcap5 : w.pool.length < jsOrNat dbConfig.connectionLimit 5 := by
    simpa [jsOrNat, dbConfig] using hcap
  constructor <;>
    simp [releaseConnection, hv, hcap5, getPoolConnectionW, getPoolConnection]

/-- Witness for Claim C4: a live connection released into the empty pool
is handed back by the next Acquire with no new token fetch. -/
theorem claim_C4_witness :
    validConn.valid = true ∧
    initialWorld.pool.length < dbConfig.connectionLimit ∧
    (getPoolConnectionW envNoConnect
        (releaseConnection (some validConn) initialWorld)).1 =
      .ok (some validConn, .pool) ∧
    (getPoolConnectionW envNoConnect
        (releaseConnection (some validConn) initialWorld)).2.tokenFetches =
      initialWorld.tokenFetches :=
  ⟨rfl, by decide,
   (claim_C4_release_then_acquire_reuses envNoConnect validConn initialWorld
      rfl (by decide)).1,
   (claim_C4_release_then_acquire_reuses envNoConnect validConn initialWorld
      rfl (by decide)).2⟩

/-- Claim C5: a pooled connection whose liveness check fails during
Acquire is never the value handed back from the pool (any connection
returned with source tag `pool` is valid), and when every pool entry is an
invalid connection the lookup discards them all into the closed pile and
falls through to the empty-pool case, i.e. to creating a fresh
connection. -/
theorem claim_C5_invalid_pool_conn_never_returned (env : ConnEnv)
    (pool : List (Option Conn)) (tf : Nat) (cl : List Conn) :
    (∀ c : Conn,
      (getPoolConnection env pool tf cl).1 = .ok (some c, .pool) →
      c.valid = true) ∧
    ((∀ x ∈ pool, ∃ c : Conn, x = some c ∧ c.valid = false) →
      getPoolConnection env pool tf cl =
        getPoolConnection env [] tf (pool.reverse.filterMap id ++ cl)) := by
  induction pool generalizing cl with
  | nil =>
    constructor
    · intro c hc
      exfalso
      simp only [getPoolConnection] at hc
      rcases h : getConnection env tf with ⟨r, tf1⟩
      rw [h] at hc
      cases r <;> simp at hc
    · intro _
      simp
  | cons hd rest ih =>
    cases hd with
    | some c0 =>
      cases hv : c0.valid with
      | false =>
        constructor
        · intro c hc
          refine (ih (c0 :: cl)).1 c ?_
          simpa [getPoolConnection, hv] using hc
        · intro hall
          have h2 := (ih (c0 :: cl)).2
            (fun x hx => hall x (List.mem_cons_of_mem _ hx))
          have hlist : (some c0 :: rest).reverse.filterMap id ++ cl =
              rest.reverse.filterMap id ++ (c0 :: cl) := by
            simp
          rw [hlist]
          rw [← h2]
          simp [getPoolConnection, hv]
      | true =>
        constructor
        · intro c hc
          simp [getPoolConnection, hv] at hc
          rw [← hc]
          exact hv
        · intro hall
          exfalso
          rcases hall (some c0) (by simp) with ⟨c1, hc1, hv1⟩
          have : c0 = c1 := Option.some.inj hc1
          rw [← this] at hv1
          rw [hv] at hv1
          exact Bool.true_eq_false.mp hv1 |>.elim
    | none =>
      constructor
      · intro c hc
        exfalso
        simp [getPoolConnection] at hc
      · intro hall
        exfalso
        rcases hall none (by simp) with ⟨c1, hc1, _⟩
        exact Option.noConfusion hc1

/-- Witness for Claim C5: a pool holding a single invalid connection is
drained into the closed pile and the lookup falls through to the
empty-pool (fresh connection) case. -/
theorem claim_C5_witness :
    invalidConn.valid = false ∧
    getPoolConnection envNoConnect [some invalidConn] 0 [] =
      getPoolConnection envNoConnect [] 0 [invalidConn] :=
  ⟨rfl,
   (claim_C5_invalid_pool_conn_never_returned envNoConnect
      [some invalidConn] 0 []).2
     (by intro x hx; simp at hx; exact ⟨invalidConn, hx, rfl⟩)⟩

/-- Every `getConnection` call performs exactly one token fetch, whatever
the outcome of the token call and of the physical connection attempt. -/
theorem getConnection_tokenFetches (env : ConnEnv) (tf : Nat) :
    (getConnection env tf).2 = tf + 1 := by
  unfold getConnection getAuthToken
  cases env.tokenOutcome with
  | ok t =>
    simp only
    cases env.connectOutcome t <;> simp
  | error e =>
    by_cases hp : isPermissionSignal e <;> simp [hp]

/-- Claim C3: neither the `/health` nor the `/students` handler ever
reads from or adds to the idle pool — the pool is bit-for-bit unchanged
across any request — and each handler request fetches exactly one fresh
token via `getConnection` (never reusing a pooled session). -/
theorem claim_C3_handlers_never_touch_pool (env : ReqEnv) (w : World) :
    ((healthHandler env w).2.pool = w.pool ∧
     (healthHandler env w).2.tokenFetches = w.tokenFetches + 1) ∧
    ((studentsHandler env w).2.pool = w.pool ∧
     (studentsHandler env w).2.tokenFetches = w.tokenFetches + 1) := by
  have hc := getConnection_tokenFetches env.toConnEnv w.tokenFetches
  rcases hgc : getConnection env.toConnEnv w.tokenFetches with ⟨r, tf1⟩
  have htf : tf1 = w.tokenFetches + 1 := by rw [hgc] at hc; exact hc
  cases r with
  | ok conn =>
    refine ⟨?_, ?_⟩ <;> constructor <;>
      · simp only [healthHandler, studentsHandler, hgc]
        cases env.pingOutcome conn <;> cases env.queryOutcome conn <;>
          simp [endConn, htf]
  | error e =>
    refine ⟨?_, ?_⟩ <;> constructor <;>
      simp [healthHandler, studentsHandler, hgc, htf]

/-- Claim C6: an underlying token-acquisition error whose name is
CredentialsProviderError or AccessDenied, or whose message contains
"credentials", "permission" or "access denied", makes `getAuthToken` fail
with the distinguished fixed permission-denied error; every other
underlying error is surfaced unchanged. -/
theorem claim_C6_token_error_classification (env : ConnEnv) (tf : Nat)
    (e : JsError) (he : env.tokenOutcome = .error e) :
    ((e.name = "CredentialsProviderError" ∨ e.name = "AccessDenied" ∨
      jsIncludes e.message "credentials" = true ∨
      jsIncludes e.message "permission" = true ∨
      jsIncludes e.message "access denied" = true) →
      (getAuthToken env tf).1 = .error rdsPermissionDenied) ∧
    (¬(e.name = "CredentialsProviderError" ∨ e.name = "AccessDenied" ∨
      jsIncludes e.message "credentials" = true ∨
      jsIncludes e.message "permission" = true ∨
      jsIncludes e.message "access denied" = true) →
      (getAuthToken env tf).1 = .error e) := by
  have hiff : isPermissionSignal e = true ↔
      (e.name = "CredentialsProviderError" ∨ e.name = "AccessDenied" ∨
       jsIncludes e.message "credentials" = true ∨
       jsIncludes e.message "permission" = true ∨
       jsIncludes e.message "access denied" = true) := by
    simp only [isPermissionSignal, Bool.or_eq_true, beq_iff_eq]
    tauto
  constructor
  · intro hd
    simp [getAuthToken, he, hiff.mpr hd]
  · intro hd
    have hfalse : isPermissionSignal e = false := by
      cases hps : isPermissionSignal e with
      | false => rfl
      | true => exact absurd (hiff.mp hps) hd
    simp [getAuthToken, he, hfalse]

/-- Witness for Claim C6: a CredentialsProviderError from the token call
is replaced by the fixed permission-denied error. -/
theorem claim_C6_witness :
    envCredsErr.tokenOutcome = .error credsErr ∧
    credsErr.name = "CredentialsProviderError" ∧
    (getAuthToken envCredsErr 0).1 = .error rdsPermissionDenied :=
  ⟨rfl, rfl,
   (claim_C6_token_error_classification envCredsErr 0 credsErr rfl).1
     (Or.inl rfl)⟩

/-- The health catch block sends the fixed 403 body whenever the error
message contains "Permission denied" (such a message is nonempty, so the
truthiness guard of the source passes). -/
theorem mapHealthErr_perm (e : JsError)
    (h : jsIncludes e.message "Permission denied" = true) :
    mapHealthErr e =
      ⟨403, .jsonStatusMessage "ERROR" rdsPermissionDenied.message⟩ := by
  have hne : (e.message == "") = false := by
    cases hm : e.message == "" with
    | false => rfl
    | true =>
      have hmm : e.message = "" := by simpa using hm
      rw [hmm] at h
      exact absurd h (by decide)
  simp [mapHealthErr, hne, h]

/-- The health catch block sends 500 with the detailed message whenever
the error message does not contain "Permission denied". -/
theorem mapHealthErr_other (e : JsError)
    (h : jsIncludes e.message "Permission denied" = false) :
    mapHealthErr e =
      ⟨500, .jsonStatusMessage "ERROR" ("Health check failed: " ++ e.message)⟩ := by
  simp [mapHealthErr, h]

/-- Claim C7: the `/health` endpoint sends 200 with the plain success
body when connection acquisition and the ping both succeed; when the
failure (from acquisition or from the ping) has a message containing
"Permission denied" it sends 403 with the fixed permission body; on any
other failure it sends 500 with "Health check failed: " followed by the
cause. -/
theorem claim_C7_health_responses (env : ReqEnv) (w : World) :
    (∀ c : Conn,
      (getConnection env.toConnEnv w.tokenFetches).1 = .ok c →
      env.pingOutcome c = .ok () →
      (healthHandler env w).1 =
        ⟨200, .text "I am OK. Database connection successful."⟩) ∧
    (∀ e : JsError,
      ((getConnection env.toConnEnv w.tokenFetches).1 = .error e ∨
       ∃ c : Conn, (getConnection env.toConnEnv w.tokenFetches).1 = .ok c ∧
         env.pingOutcome c = .error e) →
      (jsIncludes e.message "Permission denied" = true →
        (healthHandler env w).1 =
          ⟨403, .jsonStatusMessage "ERROR" rdsPermissionDenied.message⟩) ∧
      (jsIncludes e.message "Permission denied" = false →
        (healthHandler env w).1 =
          ⟨500, .jsonStatusMessage "ERROR"
            ("Health check failed: " ++ e.message)⟩)) := by
  rcases hgc : getConnection env.toConnEnv w.tokenFetches with ⟨r, tf1⟩
  constructor
  · intro c hok hping
    obtain rfl : r = Except.ok c := hok
    simp [healthHandler, hgc, hping]
  · intro e hfail
    have hmap : (healthHandler env w).1 = mapHealthErr e := by
      rcases hfail with hfe | ⟨c, hok, hping⟩
      · obtain rfl : r = Except.error e := hfe
        simp [healthHandler, hgc]
      · obtain rfl : r = Except.ok c := hok
        simp [healthHandler, hgc, hping]
    constructor
    · intro hperm
      rw [hmap, mapHealthErr_perm e hperm]
    · intro hother
      rw [hmap, mapHealthErr_other e hother]

/-- A request environment in which the token call fails with a
credential error, so connection acquisition fails with the fixed
permission-denied error. -/
def reqEnvPermission : ReqEnv :=
  { tokenOutcome := .error credsErr
    connectOutcome := fun _ => .error otherErr
    pingOutcome := fun _ => .ok ()
    queryOutcome := fun _ => .ok [] }

/-- Witness for Claim C7 at a concrete environment whose token call fails
with a credential error: `/health` answers 403 with the fixed body. -/
theorem claim_C7_witness :
    (getConnection reqEnvPermission.toConnEnv initialWorld.tokenFetches).1 =
      .error rdsPermissionDenied ∧
    jsIncludes rdsPermissionDenied.message "Permission denied" = true ∧
    (healthHandler reqEnvPermission initialWorld).1 =
      ⟨403, .jsonStatusMessage "ERROR" rdsPermissionDenied.message⟩ :=
  ⟨rfl, rfl,
   ((claim_C7_health_responses reqEnvPermission initialWorld).2
      rdsPermissionDenied (Or.inl rfl)).1 rfl⟩

/-- Claim C8: the `/students` endpoint sends 200 with the query rows on
success; a permission-flavored failure (in the sense of the catch-block
test of the source) is answered 403 with the fixed permission body; every
other failure is answered 500 with the fixed body — in particular the
driver error text never reaches the response — and the connection is
closed whenever it was acquired, including when the query failed. -/
theorem claim_C8_students_responses (env : ReqEnv) (w : World) :
    (∀ (c : Conn) (rows : List Row),
      (getConnection env.toConnEnv w.tokenFetches).1 = .ok c →
      env.queryOutcome c = .ok rows →
      (studentsHandler env w).1 = ⟨200, .rows rows⟩) ∧
    (∀ e : JsError,
      ((getConnection env.toConnEnv w.tokenFetches).1 = .error e ∨
       ∃ c : Conn, (getConnection env.toConnEnv w.tokenFetches).1 = .ok c ∧
         env.queryOutcome c = .error e) →
      (studentsPermFlavored e = true →
        (studentsHandler env w).1 =
          ⟨403, .jsonError rdsPermissionDenied.message⟩) ∧
      (studentsPermFlavored e = false →
        (studentsHandler env w).1 =
          ⟨500, .jsonError "Failed to retrieve student data."⟩)) ∧
    (∀ c : Conn,
      (getConnection env.toConnEnv w.tokenFetches).1 = .ok c →
      c ∈ (studentsHandler env w).2.closed) := by
  rcases hgc : getConnection env.toConnEnv w.tokenFetches with ⟨r, tf1⟩
  refine ⟨?_, ?_, ?_⟩
  · intro c rows hok hq
    obtain rfl : r = Except.ok c := hok
    simp [studentsHandler, hgc, hq]
  · intro e hfail
    have hmap : (studentsHandler env w).1 = mapStudentsErr e := by
      rcases hfail with hfe | ⟨c, hok, hq⟩
      · obtain rfl : r = Except.error e := hfe
        simp [studentsHandler, hgc]
      · obtain rfl : r = Except.ok c := hok
        simp [studentsHandler, hgc, hq]
    constructor
    · intro hperm
      rw [hmap]
      simp [mapStudentsErr, hperm]
    · intro hother
      rw [hmap]
      simp [mapStudentsErr, hother]
  · intro c hok
    obtain rfl : r = Except.ok c := hok
    cases hq : env.queryOutcome c <;>
      simp [studentsHandler, hgc, hq, endConn]

/-- A request environment in which acquisition succeeds but the students
query fails with a generic driver error. -/
def reqEnvQueryFail : ReqEnv :=
  { tokenOutcome := .ok "token"
    connectOutcome := fun _ => .ok validConn
    pingOutcome := fun _ => .ok ()
    queryOutcome := fun _ => .error otherErr }

/-- Witness for Claim C8 at a concrete environment whose query fails
generically: `/students` answers 500 with the fixed body and still closes
the acquired connection. -/
theorem claim_C8_witness :
    (getConnection reqEnvQueryFail.toConnEnv initialWorld.tokenFetches).1 =
      .ok validConn ∧
    studentsPermFlavored otherErr = false ∧
    (studentsHandler reqEnvQueryFail initialWorld).1 =
      ⟨500, .jsonError "Failed to retrieve student data."⟩ ∧
    validConn ∈ (studentsHandler reqEnvQueryFail initialWorld).2.closed :=
  ⟨rfl, rfl,
   ((claim_C8_students_responses reqEnvQueryFail initialWorld).2.1 otherErr
      (Or.inr ⟨validConn, rfl, rfl⟩)).2 rfl,
   (claim_C8_students_responses reqEnvQueryFail initialWorld).2.2 validConn rfl⟩
